import Mathlib

/-!
Shallow embedding of `typst-as-lib` (src/src/lib.rs): the resolver chain,
input injection into the global library scope, the per-call `TypstWorld`
environment, and the compile helper of `TypstTemplateCollection`.

External `typst` crate types (`Scope`, `Module`, `Value`, `Library`,
`Datetime`, `Font`, `Source`, `FileId`, `Bytes`, diagnostics) are embedded
structurally at the boundary used by this crate.  The repository modules
`file_resolver`, `cached_file_resolver` and `util` are not part of the
provided sources; the two pieces of them this development needs
(`util::not_found`, `MainSourceFileResolver`) are modelled from the spec
and marked as such in their doc comments.
-/

namespace TypstAsLib

/-- Embeds `typst::syntax::FileId`: optional package qualifier plus a virtual path.
Equality is structural. -/
structure FileId where
  package : Option String
  vpath : String
deriving DecidableEq, Repr

/-- Embeds `typst::syntax::Source`: a file id together with the full text body
(the derived line index is irrelevant to the claims and omitted). -/
structure Source where
  id : FileId
  text : String
deriving DecidableEq, Repr

/-- Embeds `typst::foundations::Bytes`: an immutable byte buffer. -/
abbrev Bytes := List Nat

/-- Embeds `typst::diag::FileError`, restricted to the constructors the embedded
code distinguishes. -/
inductive FileError where
  | notFound (id : FileId)
  | accessDenied (id : FileId)
  | other (msg : String)
deriving DecidableEq, Repr

/-- Embeds `typst::diag::FileResult`. -/
abbrev FileResult (α : Type) := Except FileError α

/-- Modelled from the spec: `util::not_found` (module `util` is not among the
provided sources).  The error taxonomy of the spec has `NotFound(identifier)` —
"no resolver claimed the identifier" — and the chain seeds its running error
with this value for the queried identifier. -/
def not_found (id : FileId) : FileError := FileError.notFound id

/-- The `FileResolver` trait object: two operations, resolve-as-bytes and
resolve-as-text, each fallible. -/
structure FileResolver where
  resolve_binary : FileId → FileResult Bytes
  resolve_source : FileId → FileResult Source

/-- Embeds `typst::text::Font` (opaque at this boundary: parsed font data plus an
index inside the font file). -/
structure Font where
  data : Bytes
  index : Nat
deriving DecidableEq, Repr

/-- Embeds `typst::text::FontBook`, derived from the fonts (`FontBook::from_fonts`);
its internal metadata is irrelevant here, so the book is the font list. -/
abbrev FontBook := List Font

def FontBook.from_fonts (fonts : List Font) : FontBook := fonts

/-- Embeds `typst::foundations::Value`, restricted to the shapes the injection code
inspects: a module (name plus scope) against everything else.  A scope entry
is `(name, captured, value)`; `captured` mirrors the read-only slot kind of
the `Scope` of `typst`, the one condition under which `Scope::get_mut` reports an
error. -/
inductive Value where
  | module (name : String) (scope : List (String × Bool × Value))
  | dict (entries : List (String × Value))
  | int (i : Int)
  | str (s : String)

/-- Embeds `typst::foundations::Scope`: an ordered name → slot map; each slot is
`(name, captured, value)`. -/
abbrev Scope := List (String × Bool × Value)

/-- Embeds `Scope::get` / the lookup side of `Scope::get_mut`: first slot with the
given name. -/
def scopeGet : Scope → String → Option (Bool × Value)
  | [], _ => none
  | (m, c, v) :: rest, n => if m = n then some (c, v) else scopeGet rest n

/-- The write side of `Scope::get_mut`: replace the value of the first slot
with the given name, keeping the name and kind of the slot. -/
def scopeReplaceValue (f : Value → Value) : Scope → String → Scope
  | [], _ => []
  | (m, c, v) :: rest, n =>
    if m = n then (m, c, f v) :: rest else (m, c, v) :: scopeReplaceValue f rest n

/-- Embeds `typst::foundations::Dict`: the structured input injected by callers. -/
abbrev Dict := List (String × Value)

/-- Embeds `typst::Library`, restricted to the scope of the global module (the only part
this crate touches: `library.global.scope_mut()`). -/
structure Library where
  global : Scope

/-- Embeds `Library::default()`: the global scope of the standard library.  Modelled at
the external boundary: it contains a `sys` module (contents abstracted); all
its slots are writable (`captured = false`). -/
def Library.default : Library :=
  { global := [("sys", false, Value.module "sys" [("version", false, Value.str "0.13.1")])] }

/-- Embeds `InjectLocation` (src/src/lib.rs). -/
structure InjectLocation where
  module_name : String
  value_name : String
deriving DecidableEq, Repr

/-- Embeds `typst::diag::SourceDiagnostic`, opaque at this boundary. -/
abbrev SourceDiagnostic := String

/-- Embeds `typst::model::Document`, opaque at this boundary. -/
structure Document where
  repr : Nat
deriving DecidableEq, Repr

/-- Embeds `TypstAsLibError` (src/src/lib.rs). -/
inductive TypstAsLibError where
  | TypstSource (diags : List SourceDiagnostic)
  | TypstFile (err : FileError)
  | MainSourceFileDoesNotExist (id : FileId)
  | HintedString (msg : String)

/-- Embeds `typst::diag::Warned`: a result together with the warnings collected. -/
structure Warned (α : Type) where
  output : α
  warnings : List SourceDiagnostic

/-- Embeds `TypstTemplateCollection` (src/src/lib.rs). -/
structure TypstTemplateCollection where
  book : FontBook
  fonts : List Font
  inject_location : Option InjectLocation
  file_resolvers : List FileResolver
  library : Library
  comemo_evict_max_age : Option Nat

/-- Embeds `TypstTemplateCollection::new` (src/src/lib.rs lines 53–66). -/
def TypstTemplateCollection.new (fonts : List Font) : TypstTemplateCollection :=
  { book := FontBook.from_fonts fonts
    fonts := fonts
    inject_location := none
    file_resolvers := []
    library := Library.default
    comemo_evict_max_age := some 0 }

/-- Embeds `TypstTemplateCollection::add_file_resolver_mut`: pushes the resolver to
the back of the vector. -/
def TypstTemplateCollection.add_file_resolver
    (c : TypstTemplateCollection) (r : FileResolver) : TypstTemplateCollection :=
  { c with file_resolvers := c.file_resolvers ++ [r] }

/-- The fallback loop shared by `resolve_file` and `resolve_source`: try each
resolver in order; the first success returns; every failure overwrites the
running `last_error`, which is returned when the list is exhausted. -/
def resolveChain {α : Type} (f : FileResolver → FileResult α) :
    FileError → List FileResolver → FileResult α
  | last, [] => Except.error last
  | _, r :: rs =>
    match f r with
    | Except.ok v => Except.ok v
    | Except.error e => resolveChain f e rs

/-- Embeds `TypstTemplateCollection::resolve_file` (src/src/lib.rs lines 389–399). -/
def TypstTemplateCollection.resolve_file
    (c : TypstTemplateCollection) (file_id : FileId) : FileResult Bytes :=
  resolveChain (fun r => r.resolve_binary file_id) (not_found file_id) c.file_resolvers

/-- Embeds `TypstTemplateCollection::resolve_source` (src/src/lib.rs lines 401–411). -/
def TypstTemplateCollection.resolve_source
    (c : TypstTemplateCollection) (file_id : FileId) : FileResult Source :=
  resolveChain (fun r => r.resolve_source file_id) (not_found file_id) c.file_resolvers

/-- The module/value names used by injection: the configured location, or the
default `sys`/`inputs` pair. -/
def injectNames (loc : Option InjectLocation) : String × String :=
  match loc with
  | some l => (l.module_name, l.value_name)
  | none => ("sys", "inputs")

/-- Embeds `inject_input_into_library` (src/src/lib.rs lines 414–446).  Builds a
fresh single-binding scope holding the input under `value_name`; then, if
`global.get_mut(module_name)` finds a slot: a read-only (captured) slot makes
`transpose()?` propagate the hinted error; a module slot has its scope
replaced wholesale; any other value is overwritten with a new module.  If no
slot exists, a new module is defined (appended). -/
def inject_input_into_library (library : Library) (inject_location : Option InjectLocation)
    (input : Dict) : Except TypstAsLibError Library :=
  let module_name := (injectNames inject_location).1
  let value_name := (injectNames inject_location).2
  let scope : Scope := [(value_name, false, Value.dict input)]
  match scopeGet library.global module_name with
  | some (captured, v) =>
    if captured then
      Except.error (TypstAsLibError.HintedString
        "variables from outside the function are read-only and cannot be modified")
      -- the literal message equals `readOnlyMsg`, defined below for reuse in statements
    else
      match v with
      | Value.module mname _ =>
        Except.ok { global :=
          scopeReplaceValue (fun _ => Value.module mname scope) library.global module_name }
      | _ =>
        Except.ok { global :=
          scopeReplaceValue (fun _ => Value.module module_name scope) library.global module_name }
  | none =>
    Except.ok { global := library.global ++ [(module_name, false, Value.module module_name scope)] }

/-- Embeds `TypstTemplateCollection::create_injected_library` (src/src/lib.rs lines
375–387): clone the base library, inject into the clone. -/
def TypstTemplateCollection.create_injected_library
    (c : TypstTemplateCollection) (input : Dict) : Except TypstAsLibError Library :=
  inject_input_into_library c.library c.inject_location input

/-- Embeds `TypstWorld` (src/src/lib.rs lines 645–650): the per-call environment.
`now` is the wall-clock reading (seconds since the Unix epoch) captured at
construction. -/
structure TypstWorld where
  main_source_id : FileId
  collection : TypstTemplateCollection
  library : Library
  now : Int

/-- Embeds `TypstWorld::font` (src/src/lib.rs lines 673–675):
`self.collection.fonts.get(id).cloned()`. -/
def TypstWorld.font (w : TypstWorld) (id : Nat) : Option Font :=
  w.collection.fonts.get? id

/-- Embeds `typst::foundations::Datetime` (the `Date` shape produced by
`Datetime::from_ymd`). -/
structure Datetime where
  year : Int
  month : Nat
  day : Nat
deriving DecidableEq, Repr

/-- Proleptic-Gregorian leap-year test. -/
def isLeapYear (y : Int) : Bool :=
  y % 4 = 0 && (y % 100 ≠ 0 || y % 400 = 0)

/-- Days in a month of the proleptic Gregorian calendar. -/
def daysInMonth (y : Int) (m : Nat) : Nat :=
  if m = 2 then (if isLeapYear y then 29 else 28)
  else if m = 4 || m = 6 || m = 9 || m = 11 then 30
  else 31

/-- Embeds `Datetime::from_ymd`: validity-checked date construction (the underlying
`time::Date::from_calendar_date` accepts years −9999..=9999). -/
def Datetime.from_ymd (year : Int) (month : Nat) (day : Nat) : Option Datetime :=
  if 1 ≤ month ∧ month ≤ 12 ∧ 1 ≤ day ∧ day ≤ daysInMonth year month
      ∧ -9999 ≤ year ∧ year ≤ 9999 then
    some { year := year, month := month, day := day }
  else
    none

/-- Civil-from-days: the proleptic Gregorian date of a day count relative to
1970-01-01 (what `date_naive` in `chrono` computes), returned as
(year, month, day). -/
def civilFromDays (z : Int) : Int × Nat × Nat :=
  let z := z + 719468
  let era : Int := (if 0 ≤ z then z else z - 146096) / 146097
  let doe : Nat := (z - era * 146097).toNat
  let yoe : Nat := (doe - doe / 1460 + doe / 36524 - doe / 146096) / 365
  let y : Int := (yoe : Int) + era * 400
  let doy : Nat := doe - (365 * yoe + yoe / 4 - yoe / 100)
  let mp : Nat := (5 * doy + 2) / 153
  let d : Nat := doy - (153 * mp + 2) / 5 + 1
  let m : Nat := if mp < 10 then mp + 3 else mp - 9
  (if m ≤ 2 then y + 1 else y, m, d)

/-- The calendar date (year, month, day) of a Unix timestamp in seconds
(`DateTime::date_naive` on a UTC timestamp). -/
def dateNaive (t : Int) : Int × Nat × Nat :=
  civilFromDays (Int.fdiv t 86400)

/-- Embeds `TypstWorld::today` (src/src/lib.rs lines 677–687): shift the captured
timestamp by the offset in hours, take its calendar date, and build a
`Datetime` from year/month/day. -/
def TypstWorld.today (w : TypstWorld) (offset : Option Int) : Option Datetime :=
  let now : Int :=
    match offset with
    | some h => w.now + 3600 * h
    | none => w.now
  let ymd := dateNaive now
  Datetime.from_ymd ymd.1 ymd.2.1 ymd.2.2

/-- The observable outcome of one `compile_helper` call: the returned
`Warned` result, whether `typst::compile` was invoked, the argument of the
`comemo::evict` call when one was made, and the `TypstWorld` handed to the
engine when one was built. -/
structure CompileTrace where
  result : Warned (Except TypstAsLibError Document)
  engineInvoked : Bool
  evictCall : Option Nat
  world : Option TypstWorld

/-- The tail of `compile_helper` once the library for the call is known:
build the world, run the engine, map engine diagnostics into
`TypstAsLibError::TypstSource`, then call `comemo::evict` when a max age is
configured. -/
def runEngine (engine : TypstWorld → Warned (Except (List SourceDiagnostic) Document))
    (now : Int) (c : TypstTemplateCollection) (main_source_id : FileId)
    (lib : Library) : CompileTrace :=
  let world : TypstWorld :=
    { main_source_id := main_source_id, collection := c, library := lib, now := now }
  let warned := engine world
  { result :=
      { output := warned.output.mapError (fun diags => TypstAsLibError.TypstSource diags)
        warnings := warned.warnings }
    engineInvoked := true
    evictCall := c.comemo_evict_max_age
    world := some world }

/-- Embeds `TypstTemplateCollection::compile_helper` (src/src/lib.rs lines 334–373).
`typst::compile` is the external engine, passed as a function; `Utc::now()`
is the `now` argument, captured once per call.  With inputs, the library is
the injected clone; a failed injection returns the error with empty warnings
before the engine runs.  Without inputs, the base library is borrowed. -/
def TypstTemplateCollection.compile_helper
    (engine : TypstWorld → Warned (Except (List SourceDiagnostic) Document))
    (now : Int) (c : TypstTemplateCollection) (main_source_id : FileId)
    (inputs : Option Dict) : CompileTrace :=
  match inputs with
  | some d =>
    match c.create_injected_library d with
    | Except.ok lib => runEngine engine now c main_source_id lib
    | Except.error err =>
      { result := { output := Except.error err, warnings := [] }
        engineInvoked := false
        evictCall := none
        world := none }
  | none => runEngine engine now c main_source_id c.library

/-- Embeds `TypstTemplateCollection::compile_with_input` (src/src/lib.rs lines
250–260).  The Rust method borrows `&self`; the explicit state-passing
rendition returns the collection after the call alongside the trace. -/
def TypstTemplateCollection.compile_with_input
    (engine : TypstWorld → Warned (Except (List SourceDiagnostic) Document))
    (now : Int) (c : TypstTemplateCollection) (main_source_id : FileId)
    (input : Dict) : TypstTemplateCollection × CompileTrace :=
  (c, c.compile_helper engine now main_source_id (some input))

/-- Embeds `TypstTemplateCollection::compile` (src/src/lib.rs lines 327–332). -/
def TypstTemplateCollection.compile
    (engine : TypstWorld → Warned (Except (List SourceDiagnostic) Document))
    (now : Int) (c : TypstTemplateCollection) (main_source_id : FileId) : CompileTrace :=
  c.compile_helper engine now main_source_id none

/-- Modelled from the spec: `MainSourceFileResolver` (module `file_resolver`
is not among the provided sources).  Per the resolver-chain section of the spec it
is a distinguished main-source resolver that matches only the designated
entry identifier: it answers the held source for exactly the id of that source
and reports NotFound otherwise (including for byte resolution, which is
outside its domain). -/
def MainSourceFileResolver (source : Source) : FileResolver :=
  { resolve_binary := fun file_id => Except.error (not_found file_id)
    resolve_source := fun file_id =>
      if file_id = source.id then Except.ok source else Except.error (not_found file_id) }

/-- Embeds `TypstTemplate` (src/src/lib.rs lines 448–451). -/
structure TypstTemplate where
  source_id : FileId
  collection : TypstTemplateCollection

/-- Embeds `TypstTemplate::new` (src/src/lib.rs lines 473–488): build a fresh
collection (whose resolver list is empty) and push the main-source resolver,
so it sits at the front of the chain. -/
def TypstTemplate.new (fonts : List Font) (source : Source) : TypstTemplate :=
  let collection := TypstTemplateCollection.new fonts
  { source_id := source.id
    collection :=
      { collection with
          file_resolvers := collection.file_resolvers ++ [MainSourceFileResolver source] } }

/-- Embeds `TypstTemplate::add_file_resolver` (src/src/lib.rs lines 520–526):
delegates to the push on the collection. -/
def TypstTemplate.add_file_resolver (t : TypstTemplate) (r : FileResolver) : TypstTemplate :=
  { t with collection := t.collection.add_file_resolver r }

/-- The binding name the global scope carries after injection: a pre-existing
module keeps its own name (only its scope is replaced); otherwise the new
module is named after the module name of the inject location. -/
def injectedModuleName (lib : Library) (loc : Option InjectLocation) : String :=
  match scopeGet lib.global (injectNames loc).1 with
  | some (_, Value.module mname _) => mname
  | _ => (injectNames loc).1

/-- The message of the one error `inject_input_into_library` can produce
(a read-only slot rejected by `Scope::get_mut`). -/
def readOnlyMsg : String :=
  "variables from outside the function are read-only and cannot be modified"

/-! ## Theorems -/

/-- The fallback loop returns the first success: resolvers before the first
succeeding one all fail, the value of the succeeding one is returned, the rest are
never consulted. -/
theorem resolveChain_first_ok {α : Type} (f : FileResolver → FileResult α)
    (rs₁ : List FileResolver) (r : FileResolver) (rs₂ : List FileResolver) (v : α)
    (hfail : ∀ r' ∈ rs₁, ∃ e, f r' = Except.error e) (hok : f r = Except.ok v) :
    ∀ last, resolveChain f last (rs₁ ++ r :: rs₂) = Except.ok v := by
  induction rs₁ with
  | nil =>
    intro last
    simp [resolveChain, hok]
  | cons a tl ih =>
    intro last
    obtain ⟨e, he⟩ := hfail a (List.mem_cons_self a tl)
    have hstep : resolveChain f last ((a :: tl) ++ r :: rs₂)
        = resolveChain f e (tl ++ r :: rs₂) := by
      simp [resolveChain, he]
    rw [hstep]
    exact ih (fun r' hr' => hfail r' (List.mem_cons_of_mem a hr')) e

/-- When every resolver fails, the fallback loop reports the failure of the
last resolver tried. -/
theorem resolveChain_last_error {α : Type} (f : FileResolver → FileResult α)
    (rs₁ : List FileResolver) (r : FileResolver) (e : FileError)
    (hfail : ∀ r' ∈ rs₁, ∃ e', f r' = Except.error e') (herr : f r = Except.error e) :
    ∀ last, resolveChain f last (rs₁ ++ [r]) = Except.error e := by
  induction rs₁ with
  | nil =>
    intro last
    simp [resolveChain, herr]
  | cons a tl ih =>
    intro last
    obtain ⟨e', he'⟩ := hfail a (List.mem_cons_self a tl)
    have hstep : resolveChain f last ((a :: tl) ++ [r]) = resolveChain f e' (tl ++ [r]) := by
      simp [resolveChain, he']
    rw [hstep]
    exact ih (fun r' hr' => hfail r' (List.mem_cons_of_mem a hr')) e'

/-- C1: resolving an identifier, as source or as bytes, tries the registered
resolvers in registration order and returns the success of the first resolver;
when every resolver fails, the chain returns the failure reported by the last
resolver tried. -/
theorem resolver_chain_first_success_last_failure
    (c : TypstTemplateCollection) (id : FileId) :
    (∀ rs₁ r rs₂, c.file_resolvers = rs₁ ++ r :: rs₂ →
      (∀ r' ∈ rs₁, ∃ e, r'.resolve_source id = Except.error e) →
      ∀ s, r.resolve_source id = Except.ok s →
        c.resolve_source id = Except.ok s) ∧
    (∀ rs₁ r, c.file_resolvers = rs₁ ++ [r] →
      (∀ r' ∈ rs₁, ∃ e, r'.resolve_source id = Except.error e) →
      ∀ e, r.resolve_source id = Except.error e →
        c.resolve_source id = Except.error e) ∧
    (∀ rs₁ r rs₂, c.file_resolvers = rs₁ ++ r :: rs₂ →
      (∀ r' ∈ rs₁, ∃ e, r'.resolve_binary id = Except.error e) →
      ∀ b, r.resolve_binary id = Except.ok b →
        c.resolve_file id = Except.ok b) ∧
    (∀ rs₁ r, c.file_resolvers = rs₁ ++ [r] →
      (∀ r' ∈ rs₁, ∃ e, r'.resolve_binary id = Except.error e) →
      ∀ e, r.resolve_binary id = Except.error e →
        c.resolve_file id = Except.error e) := by
  refine ⟨?_, ?_, ?_, ?_⟩
  · intro rs₁ r rs₂ hres hfail s hok
    unfold TypstTemplateCollection.resolve_source
    rw [hres]
    exact resolveChain_first_ok _ rs₁ r rs₂ s hfail hok _
  · intro rs₁ r hres hfail e herr
    unfold TypstTemplateCollection.resolve_source
    rw [hres]
    exact resolveChain_last_error _ rs₁ r e hfail herr _
  · intro rs₁ r rs₂ hres hfail b hok
    unfold TypstTemplateCollection.resolve_file
    rw [hres]
    exact resolveChain_first_ok _ rs₁ r rs₂ b hfail hok _
  · intro rs₁ r hres hfail e herr
    unfold TypstTemplateCollection.resolve_file
    rw [hres]
    exact resolveChain_last_error _ rs₁ r e hfail herr _

/-- Witness for C1: with two resolvers registered in order, both failing, the
chain reports the error of the second resolver, not of the first. -/
theorem resolver_chain_first_success_last_failure_witness :
    (((TypstTemplateCollection.new []).add_file_resolver
        { resolve_binary := fun _ => Except.error (FileError.other "first failed")
          resolve_source := fun _ => Except.error (FileError.other "first failed") }).add_file_resolver
        { resolve_binary := fun _ => Except.error (FileError.other "second failed")
          resolve_source := fun _ => Except.error (FileError.other "second failed") }).resolve_source
      ⟨none, "/main.typ"⟩ = Except.error (FileError.other "second failed") := by
  refine (resolver_chain_first_success_last_failure _ ⟨none, "/main.typ"⟩).2.1
    [{ resolve_binary := fun _ => Except.error (FileError.other "first failed")
       resolve_source := fun _ => Except.error (FileError.other "first failed") }]
    { resolve_binary := fun _ => Except.error (FileError.other "second failed")
      resolve_source := fun _ => Except.error (FileError.other "second failed") }
    rfl ?_ _ rfl
  intro r' hr'
  rw [List.mem_singleton] at hr'
  subst hr'
  exact ⟨FileError.other "first failed", rfl⟩

/-- C9: resolving any identifier through a collection with zero registered
resolvers returns the not-found failure for that identifier, for both the
source and the byte operation. -/
theorem resolve_empty_chain_not_found (c : TypstTemplateCollection) (id : FileId)
    (h : c.file_resolvers = []) :
    c.resolve_source id = Except.error (not_found id) ∧
    c.resolve_file id = Except.error (not_found id) := by
  unfold TypstTemplateCollection.resolve_source TypstTemplateCollection.resolve_file
  rw [h]
  exact ⟨rfl, rfl⟩

/-- Witness for C9: a freshly constructed collection has no resolvers, and
both resolution operations answer the not-found failure. -/
theorem resolve_empty_chain_not_found_witness :
    (TypstTemplateCollection.new []).resolve_source ⟨none, "/a.typ"⟩
      = Except.error (not_found ⟨none, "/a.typ"⟩) ∧
    (TypstTemplateCollection.new []).resolve_file ⟨none, "/a.typ"⟩
      = Except.error (not_found ⟨none, "/a.typ"⟩) :=
  resolve_empty_chain_not_found (TypstTemplateCollection.new []) ⟨none, "/a.typ"⟩ rfl

/-- C10: the font-by-index lookup of the environment returns `some` of the i-th
registered font when the index is in range and `none` when it is out of
range. -/
theorem font_lookup_total (w : TypstWorld) (i : Nat) :
    (∀ h : i < w.collection.fonts.length,
      w.font i = some (w.collection.fonts.get ⟨i, h⟩)) ∧
    (w.collection.fonts.length ≤ i → w.font i = none) := by
  constructor
  · intro h
    exact List.get?_eq_get h
  · intro h
    exact List.get?_eq_none.mpr h

/-- Witness for C10: in a world whose collection holds one font, index 0
returns that font and index 3 returns `none`. -/
theorem font_lookup_total_witness :
    ({ main_source_id := ⟨none, "/main.typ"⟩
       collection := TypstTemplateCollection.new [{ data := [0], index := 0 }]
       library := Library.default
       now := 0 } : TypstWorld).font 0 = some { data := [0], index := 0 } ∧
    ({ main_source_id := ⟨none, "/main.typ"⟩
       collection := TypstTemplateCollection.new [{ data := [0], index := 0 }]
       library := Library.default
       now := 0 } : TypstWorld).font 3 = none := by
  constructor
  · have h := (font_lookup_total
      { main_source_id := ⟨none, "/main.typ"⟩
        collection := TypstTemplateCollection.new [{ data := [0], index := 0 }]
        library := Library.default
        now := 0 } 0).1 (by decide)
    simpa using h
  · exact (font_lookup_total
      { main_source_id := ⟨none, "/main.typ"⟩
        collection := TypstTemplateCollection.new [{ data := [0], index := 0 }]
        library := Library.default
        now := 0 } 3).2 (by decide)

/-- Folding `add_file_resolver` over a list appends the resolvers in order
and changes nothing else about the template. -/
theorem foldl_add_file_resolver (rs : List FileResolver) (t : TypstTemplate) :
    (rs.foldl TypstTemplate.add_file_resolver t).collection.file_resolvers
      = t.collection.file_resolvers ++ rs ∧
    (rs.foldl TypstTemplate.add_file_resolver t).source_id = t.source_id := by
  induction rs generalizing t with
  | nil => simp
  | cons r tl ih =>
    have h := ih (t.add_file_resolver r)
    simp only [List.foldl_cons] at *
    refine ⟨?_, ?_⟩
    · rw [h.1]
      simp [TypstTemplate.add_file_resolver, TypstTemplateCollection.add_file_resolver]
    · rw [h.2]
      rfl

/-- C8: the resolver holding the construction-time main source is pushed at
construction, so after any sequence of later registrations it is still the
first resolver in the chain, and resolving the main source id of the template
yields the construction-time source regardless of the later resolvers. -/
theorem main_source_resolver_always_first (fonts : List Font) (source : Source)
    (rs : List FileResolver) :
    ((rs.foldl TypstTemplate.add_file_resolver (TypstTemplate.new fonts source)).collection.file_resolvers
      = MainSourceFileResolver source :: rs) ∧
    ((rs.foldl TypstTemplate.add_file_resolver (TypstTemplate.new fonts source)).collection.resolve_source
        (rs.foldl TypstTemplate.add_file_resolver (TypstTemplate.new fonts source)).source_id
      = Except.ok source) := by
  have h := foldl_add_file_resolver rs (TypstTemplate.new fonts source)
  have hrs : (rs.foldl TypstTemplate.add_file_resolver (TypstTemplate.new fonts source)).collection.file_resolvers
      = MainSourceFileResolver source :: rs := by
    rw [h.1]
    rfl
  refine ⟨hrs, ?_⟩
  rw [h.2]
  unfold TypstTemplateCollection.resolve_source
  rw [hrs]
  show resolveChain _ _ (MainSourceFileResolver source :: rs) = Except.ok source
  simp [resolveChain, MainSourceFileResolver, TypstTemplate.new]

/-- Looking a name up after replacing the value of its first slot sees the
replaced value (slot name and kind unchanged). -/
theorem scopeGet_replace (f : Value → Value) (s : Scope) (n : String) :
    scopeGet (scopeReplaceValue f s n) n
      = (scopeGet s n).map (fun p => (p.1, f p.2)) := by
  induction s with
  | nil => rfl
  | cons a tl ih =>
    obtain ⟨m, c, v⟩ := a
    by_cases h : m = n
    · simp [scopeGet, scopeReplaceValue, h]
    · simp [scopeGet, scopeReplaceValue, h, ih]

/-- Appending a slot for an absent name makes lookup find it. -/
theorem scopeGet_append_absent (s : Scope) (n : String) (b : Bool) (v : Value)
    (h : scopeGet s n = none) :
    scopeGet (s ++ [(n, b, v)]) n = some (b, v) := by
  induction s with
  | nil => simp [scopeGet]
  | cons a tl ih =>
    obtain ⟨m, c, w⟩ := a
    by_cases hm : m = n
    · simp [scopeGet, hm] at h
    · simp [scopeGet, hm] at h ⊢
      exact ih h

/-- After a successful injection, the global scope binds the inject
module name of the location to a writable module holding exactly the single
binding `value_name ↦ input`. -/
theorem inject_ok_binding (lib : Library) (loc : Option InjectLocation) (input : Dict)
    (lib' : Library) (h : inject_input_into_library lib loc input = Except.ok lib') :
    scopeGet lib'.global (injectNames loc).1
      = some (false, Value.module (injectedModuleName lib loc)
          [((injectNames loc).2, false, Value.dict input)]) := by
  cases hg : scopeGet lib.global (injectNames loc).1 with
  | none =>
    simp only [inject_input_into_library, hg, Except.ok.injEq] at h
    subst h
    simp only [injectedModuleName, hg]
    exact scopeGet_append_absent _ _ _ _ hg
  | some p =>
    obtain ⟨cap, v⟩ := p
    cases cap with
    | true =>
      simp [inject_input_into_library, hg] at h
    | false =>
      cases v with
      | module mname sc =>
        simp only [inject_input_into_library, hg, Bool.false_eq_true, if_false,
          Except.ok.injEq] at h
        subst h
        simp [injectedModuleName, hg, scopeGet_replace]
      | dict entries =>
        simp only [inject_input_into_library, hg, Bool.false_eq_true, if_false,
          Except.ok.injEq] at h
        subst h
        simp [injectedModuleName, hg, scopeGet_replace]
      | int i =>
        simp only [inject_input_into_library, hg, Bool.false_eq_true, if_false,
          Except.ok.injEq] at h
        subst h
        simp [injectedModuleName, hg, scopeGet_replace]
      | str s =>
        simp only [inject_input_into_library, hg, Bool.false_eq_true, if_false,
          Except.ok.injEq] at h
        subst h
        simp [injectedModuleName, hg, scopeGet_replace]

/-- C3: after injection, the global scope binds the module name of the location to
a module whose scope is exactly the single binding `value_name ↦ input`,
whether a module, a non-module value, or nothing previously existed there;
injecting input A and then input B leaves only B visible, with no residue
from A. -/
theorem inject_replaces_wholesale (lib : Library) (loc : Option InjectLocation) (input : Dict) :
    (∀ lib', inject_input_into_library lib loc input = Except.ok lib' →
      scopeGet lib'.global (injectNames loc).1
        = some (false, Value.module (injectedModuleName lib loc)
            [((injectNames loc).2, false, Value.dict input)])) ∧
    (∀ A libA libB, inject_input_into_library lib loc A = Except.ok libA →
      inject_input_into_library libA loc input = Except.ok libB →
      scopeGet libB.global (injectNames loc).1
        = some (false, Value.module (injectedModuleName lib loc)
            [((injectNames loc).2, false, Value.dict input)])) := by
  constructor
  · intro lib' h
    exact inject_ok_binding lib loc input lib' h
  · intro A libA libB hA hB
    have h1 := inject_ok_binding lib loc A libA hA
    have h2 := inject_ok_binding libA loc input libB hB
    have hname : injectedModuleName libA loc = injectedModuleName lib loc := by
      simp only [injectedModuleName, h1]
    rw [hname] at h2
    exact h2

/-- Witness for C3: injecting `{a: 1}` then `{b: 2}` at the default location
into the default library leaves `sys` bound to a module holding exactly
`inputs ↦ {b: 2}`. -/
theorem inject_replaces_wholesale_witness :
    scopeGet ({ global := [("sys", false, Value.module "sys"
        [("inputs", false, Value.dict [("b", Value.int 2)])])] } : Library).global "sys"
      = some (false, Value.module "sys" [("inputs", false, Value.dict [("b", Value.int 2)])]) := by
  have h := (inject_replaces_wholesale Library.default none [("b", Value.int 2)]).2
    [("a", Value.int 1)]
    { global := [("sys", false, Value.module "sys"
        [("inputs", false, Value.dict [("a", Value.int 1)])])] }
    { global := [("sys", false, Value.module "sys"
        [("inputs", false, Value.dict [("b", Value.int 2)])])] }
    rfl rfl
  exact h

/-- The only failure `inject_input_into_library` can produce is the hinted
read-only-slot error propagated by `transpose()?`. -/
theorem inject_error_read_only (lib : Library) (loc : Option InjectLocation) (input : Dict)
    (err : TypstAsLibError) (h : inject_input_into_library lib loc input = Except.error err) :
    err = TypstAsLibError.HintedString readOnlyMsg := by
  cases hg : scopeGet lib.global (injectNames loc).1 with
  | none => simp [inject_input_into_library, hg] at h
  | some p =>
    obtain ⟨cap, v⟩ := p
    cases cap with
    | true =>
      simp only [inject_input_into_library, hg, if_true, Except.error.injEq] at h
      exact h.symm
    | false =>
      cases v <;> simp [inject_input_into_library, hg] at h

/-- An engine outcome wrapped by `compile_helper` is a document or wrapped
diagnostics, never the `MainSourceFileDoesNotExist` variant. -/
theorem mapError_ne_main_source_missing
    (o : Except (List SourceDiagnostic) Document) (fid : FileId) :
    Except.mapError (fun diags => TypstAsLibError.TypstSource diags) o
      ≠ Except.error (TypstAsLibError.MainSourceFileDoesNotExist fid) := by
  cases o <;> simp [Except.mapError]

/-- Counterexample to C2: with zero resolvers, the main identifier
`/missing.typ` is unresolvable, yet the compile call does not fail with
`MainSourceFileDoesNotExist` before resolution: the engine is invoked and the
outcome of the call is the wrapped engine diagnostics. -/
theorem compile_missing_main_no_precheck_cex :
    ((TypstTemplateCollection.new []).resolve_source ⟨none, "/missing.typ"⟩
      = Except.error (not_found ⟨none, "/missing.typ"⟩)) ∧
    ((TypstTemplateCollection.new []).compile_helper
        (fun _ => { output := Except.error ["file not found"], warnings := [] }) 0
        ⟨none, "/missing.typ"⟩ none).engineInvoked = true ∧
    ((TypstTemplateCollection.new []).compile_helper
        (fun _ => { output := Except.error ["file not found"], warnings := [] }) 0
        ⟨none, "/missing.typ"⟩ none).result.output
      = Except.error (TypstAsLibError.TypstSource ["file not found"]) :=
  ⟨rfl, rfl, rfl⟩

/-- C2 (amended): `compile_helper` performs no pre-check of the main
identifier: for an input-free compile the engine is always invoked, and no
compile call ever returns the `MainSourceFileDoesNotExist` error — an
unresolvable main identifier surfaces through the engine diagnostics
instead. -/
theorem compile_never_main_source_missing
    (engine : TypstWorld → Warned (Except (List SourceDiagnostic) Document))
    (now : Int) (c : TypstTemplateCollection) (main : FileId) (i : Option Dict)
    (fid : FileId) :
    (i = none → (c.compile_helper engine now main i).engineInvoked = true) ∧
    (c.compile_helper engine now main i).result.output
      ≠ Except.error (TypstAsLibError.MainSourceFileDoesNotExist fid) := by
  constructor
  · intro hi
    subst hi
    rfl
  · cases i with
    | none =>
      exact mapError_ne_main_source_missing _ fid
    | some d =>
      cases hc : c.create_injected_library d with
      | ok lib =>
        simp only [TypstTemplateCollection.compile_helper, hc, runEngine]
        exact mapError_ne_main_source_missing _ fid
      | error err =>
        intro hcontra
        have herr : err = TypstAsLibError.HintedString readOnlyMsg :=
          inject_error_read_only c.library c.inject_location d err hc
        subst herr
        simp only [TypstTemplateCollection.compile_helper, hc] at hcontra
        simp at hcontra

/-- Witness for the amended C2: with zero resolvers and a failing engine, the
engine is invoked and the result is not `MainSourceFileDoesNotExist`. -/
theorem compile_never_main_source_missing_witness :
    ((TypstTemplateCollection.new []).compile_helper
        (fun _ => { output := Except.error ["err"], warnings := [] }) 0
        ⟨none, "/m.typ"⟩ none).engineInvoked = true ∧
    ((TypstTemplateCollection.new []).compile_helper
        (fun _ => { output := Except.error ["err"], warnings := [] }) 0
        ⟨none, "/m.typ"⟩ none).result.output
      ≠ Except.error (TypstAsLibError.MainSourceFileDoesNotExist ⟨none, "/m.typ"⟩) :=
  ⟨(compile_never_main_source_missing
      (fun _ => { output := Except.error ["err"], warnings := [] }) 0
      (TypstTemplateCollection.new []) ⟨none, "/m.typ"⟩ none ⟨none, "/m.typ"⟩).1 rfl,
   (compile_never_main_source_missing
      (fun _ => { output := Except.error ["err"], warnings := [] }) 0
      (TypstTemplateCollection.new []) ⟨none, "/m.typ"⟩ none ⟨none, "/m.typ"⟩).2⟩

/-- C4: `compile_with_input` leaves the collection (including its base
library) unchanged; injection is performed on a copy of the base library,
which becomes the library of the per-call world; a later compile without input on
the same collection runs on the base library with no injected input. -/
theorem compile_with_input_isolates_base
    (engine : TypstWorld → Warned (Except (List SourceDiagnostic) Document))
    (now : Int) (c : TypstTemplateCollection) (main : FileId) (d : Dict) :
    ((c.compile_with_input engine now main d).1 = c) ∧
    (c.create_injected_library d = inject_input_into_library c.library c.inject_location d) ∧
    (∀ lib', c.create_injected_library d = Except.ok lib' →
      (c.compile_with_input engine now main d).2.world
        = some { main_source_id := main, collection := c, library := lib', now := now }) ∧
    (∀ engine₂ now₂ main₂,
      ((c.compile_with_input engine now main d).1.compile engine₂ now₂ main₂).world
        = some { main_source_id := main₂, collection := c, library := c.library, now := now₂ }) := by
  refine ⟨rfl, rfl, ?_, ?_⟩
  · intro lib' h
    simp only [TypstTemplateCollection.compile_with_input,
      TypstTemplateCollection.compile_helper, h, runEngine]
  · intro engine₂ now₂ main₂
    rfl

/-- Witness for C4: a concrete with-input compile whose world carries the
injected clone, while the collection it returns still compiles on the
untouched default library. -/
theorem compile_with_input_isolates_base_witness :
    ((TypstTemplateCollection.new []).compile_with_input
        (fun _ => { output := Except.error ["err"], warnings := [] }) 0
        ⟨none, "/m.typ"⟩ [("a", Value.int 1)]).2.world
      = some { main_source_id := ⟨none, "/m.typ"⟩
               collection := TypstTemplateCollection.new []
               library := { global := [("sys", false, Value.module "sys"
                   [("inputs", false, Value.dict [("a", Value.int 1)])])] }
               now := 0 } ∧
    (((TypstTemplateCollection.new []).compile_with_input
        (fun _ => { output := Except.error ["err"], warnings := [] }) 0
        ⟨none, "/m.typ"⟩ [("a", Value.int 1)]).1.compile
        (fun _ => { output := Except.error ["err"], warnings := [] }) 7
        ⟨none, "/n.typ"⟩).world
      = some { main_source_id := ⟨none, "/n.typ"⟩
               collection := TypstTemplateCollection.new []
               library := Library.default
               now := 7 } :=
  ⟨(compile_with_input_isolates_base
      (fun _ => { output := Except.error ["err"], warnings := [] }) 0
      (TypstTemplateCollection.new []) ⟨none, "/m.typ"⟩ [("a", Value.int 1)]).2.2.1
      { global := [("sys", false, Value.module "sys"
          [("inputs", false, Value.dict [("a", Value.int 1)])])] } rfl,
   (compile_with_input_isolates_base
      (fun _ => { output := Except.error ["err"], warnings := [] }) 0
      (TypstTemplateCollection.new []) ⟨none, "/m.typ"⟩ [("a", Value.int 1)]).2.2.2
      (fun _ => { output := Except.error ["err"], warnings := [] }) 7 ⟨none, "/n.typ"⟩⟩

/-- C5: whenever the engine has returned, the compile call passes exactly the
configured max age to `comemo::evict` — eviction runs if and only if a max
age is configured — and a freshly constructed collection is configured with
eviction max age 0. -/
theorem evict_iff_configured
    (engine : TypstWorld → Warned (Except (List SourceDiagnostic) Document))
    (now : Int) (c : TypstTemplateCollection) (main : FileId) (i : Option Dict)
    (fonts : List Font) :
    ((c.compile_helper engine now main i).engineInvoked = true →
      (c.compile_helper engine now main i).evictCall = c.comemo_evict_max_age) ∧
    ((c.compile_helper engine now main i).engineInvoked = false →
      (c.compile_helper engine now main i).evictCall = none) ∧
    (TypstTemplateCollection.new fonts).comemo_evict_max_age = some 0 := by
  refine ⟨?_, ?_, rfl⟩
  · intro h
    cases i with
    | none => rfl
    | some d =>
      cases hc : c.create_injected_library d with
      | ok lib => simp only [TypstTemplateCollection.compile_helper, hc, runEngine]
      | error err =>
        simp only [TypstTemplateCollection.compile_helper, hc] at h
        cases h
  · intro h
    cases i with
    | none =>
      simp only [TypstTemplateCollection.compile_helper, runEngine] at h
      exact Bool.noConfusion h
    | some d =>
      cases hc : c.create_injected_library d with
      | ok lib =>
        simp only [TypstTemplateCollection.compile_helper, hc, runEngine] at h
        exact Bool.noConfusion h
      | error err =>
        simp only [TypstTemplateCollection.compile_helper, hc]

/-- Witness for C5: a concrete compile call on a fresh collection invokes the
engine and then evicts with the default max age 0. -/
theorem evict_iff_configured_witness :
    ((TypstTemplateCollection.new []).compile_helper
        (fun _ => { output := Except.error ["err"], warnings := [] }) 0
        ⟨none, "/m.typ"⟩ none).evictCall = some 0 :=
  (evict_iff_configured
    (fun _ => { output := Except.error ["err"], warnings := [] }) 0
    (TypstTemplateCollection.new []) ⟨none, "/m.typ"⟩ none []).1 rfl

/-- C6: the wall-clock reading is captured once at environment construction
and fixed for the call: the timestamp of the constructed world is the captured
one, two today-queries with the same offset agree, and today with offset `h`
is the calendar date of the captured timestamp shifted by `h` hours. -/
theorem today_fixed_per_call
    (engine : TypstWorld → Warned (Except (List SourceDiagnostic) Document))
    (now : Int) (c : TypstTemplateCollection) (main : FileId) (i : Option Dict)
    (w : TypstWorld) (h : (c.compile_helper engine now main i).world = some w) :
    w.now = now ∧
    (∀ o₁ o₂ : Option Int, o₁ = o₂ → w.today o₁ = w.today o₂) ∧
    (∀ hh : Int,
      w.today (some hh)
        = Datetime.from_ymd (dateNaive (now + 3600 * hh)).1
            (dateNaive (now + 3600 * hh)).2.1 (dateNaive (now + 3600 * hh)).2.2) := by
  cases i with
  | none =>
    simp only [TypstTemplateCollection.compile_helper, runEngine, Option.some.injEq] at h
    subst h
    refine ⟨rfl, ?_, ?_⟩
    · intro o₁ o₂ ho
      rw [ho]
    · intro hh
      rfl
  | some d =>
    cases hc : c.create_injected_library d with
    | ok lib =>
      simp only [TypstTemplateCollection.compile_helper, hc, runEngine,
        Option.some.injEq] at h
      subst h
      refine ⟨rfl, ?_, ?_⟩
      · intro o₁ o₂ ho
        rw [ho]
      · intro hh
        rfl
    | error err =>
      simp only [TypstTemplateCollection.compile_helper, hc] at h
      exact Option.noConfusion h

/-- Witness for C6: the world of a concrete compile call carries the captured
timestamp, and its today-query at offset 5 is the calendar date of the
shifted timestamp. -/
theorem today_fixed_per_call_witness :
    ({ main_source_id := ⟨none, "/m.typ"⟩
       collection := TypstTemplateCollection.new []
       library := Library.default
       now := 1000000 } : TypstWorld).now = 1000000 ∧
    ({ main_source_id := ⟨none, "/m.typ"⟩
       collection := TypstTemplateCollection.new []
       library := Library.default
       now := 1000000 } : TypstWorld).today (some 5)
      = Datetime.from_ymd (dateNaive (1000000 + 3600 * 5)).1
          (dateNaive (1000000 + 3600 * 5)).2.1 (dateNaive (1000000 + 3600 * 5)).2.2 :=
  ⟨(today_fixed_per_call
      (fun _ => { output := Except.error ["err"], warnings := [] }) 1000000
      (TypstTemplateCollection.new []) ⟨none, "/m.typ"⟩ none
      { main_source_id := ⟨none, "/m.typ"⟩
        collection := TypstTemplateCollection.new []
        library := Library.default
        now := 1000000 } rfl).1,
   (today_fixed_per_call
      (fun _ => { output := Except.error ["err"], warnings := [] }) 1000000
      (TypstTemplateCollection.new []) ⟨none, "/m.typ"⟩ none
      { main_source_id := ⟨none, "/m.typ"⟩
        collection := TypstTemplateCollection.new []
        library := Library.default
        now := 1000000 } rfl).2.2 5⟩

/-- C7: a failed library injection makes the helper of `compile_with_input` return
that typed error with an empty warnings list, without invoking the engine;
and whenever the engine runs, its warnings are handed to the caller
unchanged, on success and on failure alike. -/
theorem injection_failure_aborts
    (engine : TypstWorld → Warned (Except (List SourceDiagnostic) Document))
    (now : Int) (c : TypstTemplateCollection) (main : FileId) (d : Dict) :
    (∀ err, c.create_injected_library d = Except.error err →
      c.compile_helper engine now main (some d)
        = { result := { output := Except.error err, warnings := [] }
            engineInvoked := false
            evictCall := none
            world := none }) ∧
    (∀ (i : Option Dict) (w : TypstWorld),
      (c.compile_helper engine now main i).world = some w →
      (c.compile_helper engine now main i).result.warnings = (engine w).warnings) := by
  constructor
  · intro err h
    simp only [TypstTemplateCollection.compile_helper, h]
  · intro i w h
    cases i with
    | none =>
      simp only [TypstTemplateCollection.compile_helper, runEngine,
        Option.some.injEq] at h
      subst h
      rfl
    | some d' =>
      cases hc : c.create_injected_library d' with
      | ok lib =>
        simp only [TypstTemplateCollection.compile_helper, hc, runEngine,
          Option.some.injEq] at h ⊢
        subst h
        rfl
      | error err =>
        simp only [TypstTemplateCollection.compile_helper, hc] at h
        exact Option.noConfusion h

/-- Witness for C7: injecting into a library whose `sys` slot is read-only
fails, and the call returns that error with empty warnings and no engine
invocation; a call that does reach the engine hands back the engine
warnings. -/
theorem injection_failure_aborts_witness :
    ({ TypstTemplateCollection.new [] with
        library := { global := [("sys", true, Value.int 0)] } } : TypstTemplateCollection).compile_helper
        (fun _ => { output := Except.error ["err"], warnings := ["w1"] }) 0
        ⟨none, "/m.typ"⟩ (some [("a", Value.int 1)])
      = { result := { output := Except.error (TypstAsLibError.HintedString readOnlyMsg)
                      warnings := [] }
          engineInvoked := false
          evictCall := none
          world := none } ∧
    ((TypstTemplateCollection.new []).compile_helper
        (fun _ => { output := Except.error ["err"], warnings := ["w1"] }) 0
        ⟨none, "/m.typ"⟩ none).result.warnings = ["w1"] :=
  ⟨(injection_failure_aborts
      (fun _ => { output := Except.error ["err"], warnings := ["w1"] }) 0
      { TypstTemplateCollection.new [] with
          library := { global := [("sys", true, Value.int 0)] } }
      ⟨none, "/m.typ"⟩ [("a", Value.int 1)]).1
      (TypstAsLibError.HintedString readOnlyMsg) rfl,
   ((injection_failure_aborts
      (fun _ => { output := Except.error ["err"], warnings := ["w1"] }) 0
      (TypstTemplateCollection.new []) ⟨none, "/m.typ"⟩ [("a", Value.int 1)]).2 none
      { main_source_id := ⟨none, "/m.typ"⟩
        collection := TypstTemplateCollection.new []
        library := Library.default
        now := 0 } rfl).trans rfl⟩

end TypstAsLib
